import Mathlib

/-! Shallow embedding of the Document Cache component of the
HealthDocumentTracker frontend: the `DocumentCacheProvider` React context
(`src/Frontend/components/navigation/Header/index.tsx`, cache segment).

The cache owns a `CacheState` record (`documents`, `lastFetched`,
`isLoading`), a mutable single-flight guard (`fetchingRef`), and exposes
`getDocuments`, `addDocument`, `removeDocument`, `refreshDocuments`,
`invalidateCache`.  `fetchDocuments(showLoading)` performs the network
call against the Document Listing Service (`apiListDocuments`).

The host runs JavaScript: single-threaded cooperative scheduling, so each
synchronous segment of code executes atomically, and the only interleaving
points are the `await` of the network call.  We model this with a
small-step machine: each `Event` is one atomic synchronous segment
(a call of a cache operation up to the point where it issues the network
request, or the resolution/rejection of an outstanding request).

The in-flight network requests are modelled as the list `pending`; the
source guarantees at most one via the `fetchingRef` flag, and we prove
that bound as an invariant rather than baking it into the type.
-/

/-- The `Document` interface from `src/Frontend/app` types.  The cache only
inspects `id`; the rest travels through opaquely. -/
structure Document where
  id : String
  userId : String
  documentId : String
  reportId : String
  originalFileName : String
  displayName : String
  contentType : String
  fileSize : Int
  blobUri : String
  sasUrl : Option String
  blobName : String
  blobContainer : String
  thumbnailUri : Option String
  searchDocumentIds : List String
  totalPages : Int
  uploadedAt : String
  status : String
  type : String
  deriving DecidableEq, Repr

/-- The Document Listing Service response body.  `apiListDocuments` returns
untyped JSON (`Promise<any>` in `src/Frontend/config/api.ts`), and the cache
reads `response.documents || []`, so the `documents` field may be absent or
null on the wire: we model that field as an `Option`, `none` standing for
absent/null. -/
structure DocumentListResponse where
  documents : Option (List Document)
  count : Int
  userId : String
  deriving DecidableEq, Repr

/-- The `DocumentCache` state record held by `useState` in
`DocumentCacheProvider`. -/
structure CacheState where
  documents : List Document
  lastFetched : Option Int
  isLoading : Bool
  deriving DecidableEq, Repr

/-- The TTL constant: `const CACHE_TTL = 2 * 60 * 1000;` (milliseconds). -/
def CACHE_TTL : Int := 2 * 60 * 1000

/-- Staleness check `isCacheStale`: `lastFetched === null` is stale;
otherwise stale iff `Date.now() - lastFetched > CACHE_TTL` (strict). -/
def isCacheStale (now : Int) (cache : CacheState) : Bool :=
  match cache.lastFetched with
  | none => true
  | some t => decide (now - t > CACHE_TTL)

/-- Which call site initiated a fetch.  All three call
`fetchDocuments`; they differ in the `showLoading` argument and in how the
returned promise is wired:
* `fgGet`  — the empty-or-forceRefresh branch of `getDocuments`:
  `await fetchDocuments(true)`, rejection propagates to the caller;
* `bgGet`  — the staleness branch of `getDocuments`:
  `fetchDocuments(false).catch(log)`, not awaited, rejection swallowed;
* `refresh` — `refreshDocuments`: `await fetchDocuments(false)`,
  rejection propagates to the caller. -/
inductive Initiator where
  | fgGet
  | bgGet
  | refresh
  deriving DecidableEq, Repr

/-- The `showLoading` argument that each call site passes to
`fetchDocuments`. -/
def Initiator.showLoading : Initiator → Bool
  | .fgGet => true
  | .bgGet => false
  | .refresh => false

/-- Whole system state: the React cache state, the `fetchingRef.current`
boolean, and the outstanding network requests (each tagged by its
initiator).  In the source at most one request can be outstanding; here
`pending` is a list so that bound is provable, not assumed. -/
structure SysState where
  cache : CacheState
  fetching : Bool
  pending : List Initiator
  deriving DecidableEq, Repr

/-- The initial state: `useState` initialiser (`documents: [], lastFetched:
null, isLoading: false`), `fetchingRef` initialised to `false`, nothing in
flight. -/
def initState : SysState :=
  { cache := { documents := [], lastFetched := none, isLoading := false }
    fetching := false
    pending := [] }

/-- Observation of one step: whether this segment issued a network call to
the Document Listing Service, and the error (if any) that this segment
raised to the cache operation's caller (`none` when nothing was raised,
including when a rejection was swallowed by the background `.catch`). -/
structure Obs where
  networkCalled : Bool
  raised : Option String
  deriving DecidableEq, Repr

/-- The silent observation: no network call, nothing raised. -/
def Obs.none : Obs := { networkCalled := false, raised := Option.none }

/-- Synchronous prefix of `fetchDocuments(showLoading)` up to the `await`:
`if (fetchingRef.current) return;` then `fetchingRef.current = true;`,
then `if (showLoading) setCache(prev => ({ ...prev, isLoading: true }));`,
then the network request is issued. -/
def fetchStart (who : Initiator) (s : SysState) : SysState × Obs :=
  if s.fetching then (s, Obs.none)
  else
    ({ cache :=
         if who.showLoading then { s.cache with isLoading := true } else s.cache
       fetching := true
       pending := s.pending ++ [who] },
     { networkCalled := true, raised := Option.none })

/-- Atomic execution segments of the cache component. -/
inductive Event where
  /-- A call `getDocuments(forceRefresh)` at wall-clock time `now`,
  executed up to the point where it issues (or skips) a network call. -/
  | getDocs (forceRefresh : Bool) (now : Int)
  /-- A call `refreshDocuments()`, likewise up to the network call. -/
  | refreshDocs
  /-- A call `addDocument(d)` (synchronous). -/
  | addDoc (d : Document)
  /-- A call `removeDocument(id)` (synchronous). -/
  | removeDoc (id : String)
  /-- A call `invalidateCache()` (synchronous). -/
  | invalidate
  /-- The outstanding `apiListDocuments()` promise resolves with `resp`;
  `Date.now()` inside the continuation evaluates to `now`. -/
  | resolve (resp : DocumentListResponse) (now : Int)
  /-- The outstanding `apiListDocuments()` promise rejects with error
  `err`. -/
  | reject (err : String)
  deriving DecidableEq, Repr

/-- One atomic step.  `resolve`/`reject` with nothing in flight cannot
occur in the source (there is no promise to settle); we make them
stutter. -/
def step (e : Event) (s : SysState) : SysState × Obs :=
  match e with
  | .getDocs forceRefresh _now =>
      -- `if (cache.documents.length === 0 || forceRefresh) { await fetchDocuments(true); return; }`
      if s.cache.documents.length = 0 || forceRefresh then
        fetchStart .fgGet s
      -- `if (isCacheStale()) { fetchDocuments(false).catch(...); }`
      else if isCacheStale _now s.cache then
        fetchStart .bgGet s
      else
        (s, Obs.none)
  | .refreshDocs =>
      -- `await fetchDocuments(false);`
      fetchStart .refresh s
  | .addDoc d =>
      -- `setCache(prev => ({ ...prev, documents: [document, ...prev.documents] }));`
      ({ s with cache := { s.cache with documents := d :: s.cache.documents } },
       Obs.none)
  | .removeDoc documentId =>
      -- `setCache(prev => ({ ...prev, documents: prev.documents.filter(doc => doc.id !== documentId) }));`
      ({ s with cache :=
           { s.cache with
             documents := s.cache.documents.filter (fun doc => doc.id ≠ documentId) } },
       Obs.none)
  | .invalidate =>
      -- `setCache({ documents: [], lastFetched: null, isLoading: false });`
      ({ s with cache := { documents := [], lastFetched := none, isLoading := false } },
       Obs.none)
  | .resolve resp now =>
      match s.pending with
      | [] => (s, Obs.none)
      | _ :: rest =>
          -- `const documents = response.documents || [];`
          -- `setCache({ documents, lastFetched: Date.now(), isLoading: false });`
          -- `finally { fetchingRef.current = false; }`
          ({ cache :=
               { documents := resp.documents.getD []
                 lastFetched := some now
                 isLoading := false }
             fetching := false
             pending := rest },
           Obs.none)
  | .reject err =>
      match s.pending with
      | [] => (s, Obs.none)
      | who :: rest =>
          -- `catch { setCache(prev => ({ ...prev, isLoading: false })); throw error; }`
          -- `finally { fetchingRef.current = false; }`
          -- The rethrown error reaches the operation's caller unless the
          -- initiator was the background branch, whose `.catch` swallows it.
          ({ cache := { s.cache with isLoading := false }
             fetching := false
             pending := rest },
           { networkCalled := false
             raised := if who = .bgGet then Option.none else some err })

/-- Run a list of events from a state. -/
def run (es : List Event) (s : SysState) : SysState :=
  es.foldl (fun s e => (step e s).1) s

/-- Number of network calls issued along a trace. -/
def netCalls (es : List Event) (s : SysState) : Nat :=
  match es with
  | [] => 0
  | e :: rest =>
      (if (step e s).2.networkCalled then 1 else 0) + netCalls rest (step e s).1

/-- A state is reachable if some trace from the initial state produces
it. -/
def Reachable (s : SysState) : Prop :=
  ∃ es : List Event, run es initState = s

/-! Concrete documents, responses and states used by witnesses and
counterexamples. -/

/-- A sample document with id `"a"`. -/
def docA : Document :=
  { id := "a", userId := "u1", documentId := "d1", reportId := "r1"
    originalFileName := "a.pdf", displayName := "A"
    contentType := "application/pdf", fileSize := 100, blobUri := "blob://a"
    sasUrl := Option.none, blobName := "a", blobContainer := "c"
    thumbnailUri := Option.none, searchDocumentIds := [], totalPages := 1
    uploadedAt := "2024-01-01", status := "ready", type := "pdf" }

/-- A sample document with id `"b"`. -/
def docB : Document :=
  { id := "b", userId := "u1", documentId := "d2", reportId := "r2"
    originalFileName := "b.png", displayName := "B"
    contentType := "image/png", fileSize := 200, blobUri := "blob://b"
    sasUrl := Option.none, blobName := "b", blobContainer := "c"
    thumbnailUri := Option.none, searchDocumentIds := [], totalPages := 1
    uploadedAt := "2024-01-02", status := "ready", type := "image" }

/-- A concrete reachable state: one successful fetch at time 0 that
returned the single document `docA`. -/
def sPopulated : SysState :=
  run [Event.getDocs false 0,
       Event.resolve { documents := some [docA], count := 1, userId := "u1" } 0]
      initState

example : sPopulated =
    { cache := { documents := [docA], lastFetched := some 0, isLoading := false }
      fetching := false
      pending := [] } := by decide

/-- C7: for every document `d` and every cache state, `addDocument(d)`
prepends `d`: the new `documents` is `d` consed on the old list (so the
first element has id `d.id` and the rest are the previous list in order),
and `lastFetched` and `isLoading` are unchanged. -/
theorem addDocument_prepends (s : SysState) (d : Document) :
    (step (.addDoc d) s).1.cache.documents = d :: s.cache.documents ∧
    ((step (.addDoc d) s).1.cache.documents.head?.map Document.id = some d.id) ∧
    (step (.addDoc d) s).1.cache.lastFetched = s.cache.lastFetched ∧
    (step (.addDoc d) s).1.cache.isLoading = s.cache.isLoading := by
  simp [step]

/-- C8: `removeDocument` is idempotent (a second removal of the same id
changes nothing), removal of an absent id is a silent no-op, and
`removeDocument` never modifies `lastFetched` or `isLoading`. -/
theorem removeDocument_idempotent (s : SysState) (i : String) :
    ((step (.removeDoc i) (step (.removeDoc i) s).1).1.cache.documents
       = (step (.removeDoc i) s).1.cache.documents) ∧
    (i ∉ s.cache.documents.map Document.id →
       (step (.removeDoc i) s).1.cache.documents = s.cache.documents) ∧
    (step (.removeDoc i) s).1.cache.lastFetched = s.cache.lastFetched ∧
    (step (.removeDoc i) s).1.cache.isLoading = s.cache.isLoading := by
  refine ⟨?_, ?_, rfl, rfl⟩
  · simp [step, List.filter_filter]
  · intro hmem
    simp only [step]
    refine List.filter_eq_self.mpr ?_
    intro d hd
    simp only [decide_eq_true_eq]
    intro hid
    exact hmem (hid ▸ List.mem_map_of_mem Document.id hd)

/-- Witness for C8 at a concrete input: removing the absent id `"z"` from
the populated state leaves `documents` unchanged. -/
theorem removeDocument_idempotent_witness :
    "z" ∉ sPopulated.cache.documents.map Document.id ∧
    (step (.removeDoc "z") sPopulated).1.cache.documents
      = sPopulated.cache.documents :=
  ⟨by decide, (removeDocument_idempotent sPopulated "z").2.1 (by decide)⟩

/-- C10: a successful fetch whose response carries an absent/null
`documents` field does not raise: it installs the empty list, sets
`lastFetched` to the current time, clears `isLoading`, and behaves exactly
like a response carrying an explicit empty list. -/
theorem fetch_null_documents_ok (s : SysState)
    (resp respEmpty : DocumentListResponse) (now : Int)
    (hnull : resp.documents = Option.none)
    (hempty : respEmpty.documents = some []) :
    (s.pending ≠ [] →
       (step (.resolve resp now) s).1.cache =
         { documents := [], lastFetched := some now, isLoading := false } ∧
       (step (.resolve resp now) s).2.raised = Option.none ∧
       (step (.resolve resp now) s).1.fetching = false) ∧
    step (.resolve resp now) s = step (.resolve respEmpty now) s := by
  constructor
  · intro hp
    match hpend : s.pending with
    | [] => exact absurd hpend hp
    | who :: rest => simp [step, hpend, hnull, Obs.none]
  · match hpend : s.pending with
    | [] => simp [step, hpend]
    | who :: rest => simp [step, hpend, hnull, hempty]

/-- Witness for C10 at a concrete input: a pending refresh resolving with
a null `documents` field installs the empty list at time 7. -/
theorem fetch_null_documents_ok_witness :
    (let s : SysState :=
      { cache := { documents := [docA], lastFetched := some 0, isLoading := false }
        fetching := true
        pending := [Initiator.refresh] }
     (step (.resolve { documents := Option.none, count := 0, userId := "u1" } 7) s).1.cache =
       { documents := [], lastFetched := some 7, isLoading := false }) :=
  ((fetch_null_documents_ok
      { cache := { documents := [docA], lastFetched := some 0, isLoading := false }
        fetching := true
        pending := [Initiator.refresh] }
      { documents := Option.none, count := 0, userId := "u1" }
      { documents := some [], count := 0, userId := "u1" } 7 rfl rfl).1
    (by decide)).1

/-! Frame lemmas about `fetchStart`, shared by several claims. -/

/-- Starting a fetch never changes the cached document list. -/
theorem fetchStart_documents (who : Initiator) (s : SysState) :
    (fetchStart who s).1.cache.documents = s.cache.documents := by
  unfold fetchStart
  split
  · rfl
  · dsimp only
    split <;> rfl

/-- Starting a fetch never changes `lastFetched`. -/
theorem fetchStart_lastFetched (who : Initiator) (s : SysState) :
    (fetchStart who s).1.cache.lastFetched = s.cache.lastFetched := by
  unfold fetchStart
  split
  · rfl
  · dsimp only
    split <;> rfl

/-- Starting a fetch with `showLoading = false` never changes
`isLoading`. -/
theorem fetchStart_isLoading_of_not_showLoading (who : Initiator) (s : SysState)
    (h : who.showLoading = false) :
    (fetchStart who s).1.cache.isLoading = s.cache.isLoading := by
  unfold fetchStart
  split
  · rfl
  · simp [h]

/-- C1 counterexample: after a successful fetch at time `t = 0` that
returned an empty document list, a `getDocuments(false)` read at
`t' = 5 < t + 120000` still issues a network call, because the
empty-cache test `cache.documents.length === 0` fires on the
empty-but-fresh cache. -/
theorem freshness_empty_counterexample :
    (let s := run [Event.getDocs false 0,
                   Event.resolve { documents := some [], count := 0, userId := "u1" } 0]
                  initState
     s.cache.documents = [] ∧ s.cache.lastFetched = some 0 ∧
     s.fetching = false ∧ (5 : Int) < 0 + CACHE_TTL ∧
     (step (.getDocs false 5) s).2.networkCalled = true) := by decide

/-- C1 (amended): if the cached document list is non-empty and the most
recent successful fetch happened at time `t`, then a `getDocuments(false)`
read at any time `now < t + CACHE_TTL` issues no network call and leaves
the whole state unchanged.  The amendment restricts the claim to a
non-empty cached list: the code treats an empty cached list as an empty
cache and performs a foreground fetch regardless of freshness. -/
theorem freshness_nonempty (s : SysState) (t now : Int)
    (hne : s.cache.documents ≠ [])
    (hlf : s.cache.lastFetched = some t)
    (hfresh : now < t + CACHE_TTL) :
    (step (.getDocs false now) s).2.networkCalled = false ∧
    (step (.getDocs false now) s).1 = s := by
  have hlen : ¬ s.cache.documents.length = 0 := by
    simpa [List.length_eq_zero] using hne
  have hstale : isCacheStale now s.cache = false := by
    simp only [isCacheStale, hlf, decide_eq_false_iff_not, not_lt]
    omega
  simp [step, hlen, hstale, Obs.none]

/-- Witness for C1 (amended) at a concrete input: a read at time 5 on the
populated state fetched at time 0 issues no network call. -/
theorem freshness_nonempty_witness :
    (step (.getDocs false 5) sPopulated).2.networkCalled = false ∧
    (step (.getDocs false 5) sPopulated).1 = sPopulated :=
  freshness_nonempty sPopulated 0 5 (by decide) (by decide) (by decide)

/-- C2 counterexample: from the initial state, two `addDocument(docA)`
calls reach a state whose `documents` holds two entries with the same id
`"a"`: `addDocument` prepends unconditionally and never deduplicates. -/
theorem addDocument_duplicate_counterexample :
    (run [Event.addDoc docA, Event.addDoc docA] initState).cache.documents
      = [docA, docA] ∧
    ¬ ((run [Event.addDoc docA, Event.addDoc docA] initState).cache.documents.map
        Document.id).Nodup := by decide

/-- C2 (amended): every cache operation preserves distinctness of ids,
provided a `resolve` installs a server list with distinct ids (the spec
trusts the server to deduplicate) and an `addDocument(d)` is only invoked
when `d.id` is not already cached.  The amendment adds the latter proviso:
`addDocument` itself performs no dedup check, and violating the proviso
produces a duplicate (see the counterexample). -/
theorem step_preserves_nodup (e : Event) (s : SysState)
    (hs : (s.cache.documents.map Document.id).Nodup)
    (hadd : ∀ d : Document, e = .addDoc d → d.id ∉ s.cache.documents.map Document.id)
    (hresp : ∀ (resp : DocumentListResponse) (now : Int), e = .resolve resp now →
       ((resp.documents.getD []).map Document.id).Nodup) :
    ((step e s).1.cache.documents.map Document.id).Nodup := by
  cases e with
  | getDocs f now =>
      simp only [step]
      split
      · rw [fetchStart_documents]; exact hs
      · split
        · rw [fetchStart_documents]; exact hs
        · exact hs
  | refreshDocs =>
      simp only [step]
      rw [fetchStart_documents]; exact hs
  | addDoc d =>
      simp only [step, List.map_cons]
      exact List.nodup_cons.mpr ⟨hadd d rfl, hs⟩
  | removeDoc i =>
      simp only [step]
      exact hs.sublist (List.Sublist.map Document.id (List.filter_sublist _))
  | invalidate =>
      simp [step]
  | resolve resp now =>
      simp only [step]
      match hpend : s.pending with
      | [] => exact hs
      | who :: rest =>
          simp only
          exact hresp resp now rfl
  | reject err =>
      simp only [step]
      match hpend : s.pending with
      | [] => exact hs
      | who :: rest => exact hs

/-- Witness for C2 (amended) at a concrete input: adding `docB` (a fresh
id) to the populated state keeps the ids distinct. -/
theorem step_preserves_nodup_witness :
    (sPopulated.cache.documents.map Document.id).Nodup ∧
    docB.id ∉ sPopulated.cache.documents.map Document.id ∧
    (((step (.addDoc docB) sPopulated).1.cache.documents.map Document.id).Nodup) :=
  ⟨by decide, by decide,
    step_preserves_nodup (.addDoc docB) sPopulated (by decide)
      (fun d hd => by injection hd with h; subst h; decide)
      (fun resp now h => by exact absurd h (by simp))⟩

/-! Generic invariant machinery over traces. -/

/-- A step-closed predicate holds along any run. -/
theorem run_preserves (P : SysState → Prop)
    (hstep : ∀ (e : Event) (s : SysState), P s → P (step e s).1)
    (es : List Event) (s : SysState) (h : P s) : P (run es s) := by
  induction es generalizing s with
  | nil => exact h
  | cons e rest ih => exact ih (step e s).1 (hstep e s h)

/-- A step-closed predicate true initially holds at every reachable
state. -/
theorem reachable_inv (P : SysState → Prop) (hinit : P initState)
    (hstep : ∀ (e : Event) (s : SysState), P s → P (step e s).1)
    (s : SysState) (h : Reachable s) : P s := by
  obtain ⟨es, hes⟩ := h
  exact hes ▸ run_preserves P hstep es initState hinit

/-- Single-flight invariant: at most one network request is outstanding,
and the `fetchingRef` guard is set exactly while one is outstanding (so
the guard is released on every exit path of `fetchDocuments`). -/
def FlightInv (s : SysState) : Prop :=
  s.pending.length ≤ 1 ∧ s.fetching = !s.pending.isEmpty

/-- Starting a fetch preserves the single-flight invariant. -/
theorem fetchStart_flightInv (who : Initiator) (s : SysState)
    (h : FlightInv s) : FlightInv (fetchStart who s).1 := by
  unfold fetchStart
  split
  · exact h
  · next hf =>
    have hnil : s.pending = [] := by
      rcases h with ⟨-, h2⟩
      rw [Bool.eq_false_iff.mpr hf] at h2
      simpa [List.isEmpty_iff] using h2.symm
    constructor
    · simp [hnil]
    · simp [hnil]

/-- Every step preserves the single-flight invariant. -/
theorem step_flightInv (e : Event) (s : SysState)
    (h : FlightInv s) : FlightInv (step e s).1 := by
  cases e with
  | getDocs f now =>
      simp only [step]
      split
      · exact fetchStart_flightInv _ s h
      · split
        · exact fetchStart_flightInv _ s h
        · exact h
  | refreshDocs => exact fetchStart_flightInv _ s h
  | addDoc d => exact h
  | removeDoc i => exact h
  | invalidate => exact h
  | resolve resp now =>
      simp only [step]
      match hpend : s.pending with
      | [] => exact h
      | who :: rest =>
          have hrest : rest = [] := by
            have := h.1
            rw [hpend] at this
            simpa [List.length_eq_zero] using this
          subst hrest
          exact ⟨by simp, by simp⟩
  | reject err =>
      simp only [step]
      match hpend : s.pending with
      | [] => exact h
      | who :: rest =>
          have hrest : rest = [] := by
            have := h.1
            rw [hpend] at this
            simpa [List.length_eq_zero] using this
          subst hrest
          exact ⟨by simp, by simp⟩

/-- A `getDocuments` call while the guard is held changes nothing and
issues no network call. -/
theorem step_getDocs_of_fetching (f : Bool) (now : Int) (s : SysState)
    (h : s.fetching = true) :
    step (.getDocs f now) s = (s, Obs.none) := by
  simp only [step, fetchStart, h, if_true]
  split
  · rfl
  · split
    · rfl
    · rfl

/-- Any number of `getDocuments` calls while the guard is held issue no
network call. -/
theorem netCalls_getDocs_of_fetching (calls : List (Bool × Int)) (s : SysState)
    (h : s.fetching = true) :
    netCalls (calls.map (fun c => Event.getDocs c.1 c.2)) s = 0 := by
  induction calls with
  | nil => rfl
  | cons c rest ih =>
      simp only [List.map_cons, netCalls, step_getDocs_of_fetching c.1 c.2 s h]
      simpa [Obs.none] using ih

/-- C3: from a populated-stale cache with no fetch in flight, a
`getDocuments()` call followed by any further `getDocuments` calls issued
before the in-flight fetch resolves yields exactly one network call to the
Document Listing Service; moreover, in every reachable state at most one
fetch is in flight, and the guard (`fetchingRef`) is set exactly while one
is in flight — so it is released on every exit path. -/
theorem single_flight :
    (∀ (s : SysState) (t now : Int) (rest : List (Bool × Int)),
       s.cache.documents ≠ [] → s.cache.lastFetched = some t →
       now - t > CACHE_TTL → s.fetching = false →
       netCalls
         (Event.getDocs false now :: rest.map (fun c => Event.getDocs c.1 c.2))
         s = 1) ∧
    (∀ s : SysState, Reachable s →
       s.pending.length ≤ 1 ∧ s.fetching = !s.pending.isEmpty) := by
  constructor
  · intro s t now rest hne hlf hstale hf
    have hlen : ¬ s.cache.documents.length = 0 := by
      simpa [List.length_eq_zero] using hne
    have hstale' : isCacheStale now s.cache = true := by
      simp only [isCacheStale, hlf, decide_eq_true_eq]
      exact hstale
    have h1 : step (.getDocs false now) s = fetchStart .bgGet s := by
      simp [step, hlen, hstale']
    have h2 : fetchStart .bgGet s =
        ({ cache := s.cache, fetching := true, pending := s.pending ++ [.bgGet] },
         { networkCalled := true, raised := Option.none }) := by
      simp [fetchStart, hf, Initiator.showLoading]
    simp only [netCalls, h1, h2, if_true]
    rw [netCalls_getDocs_of_fetching rest _ rfl]
  · intro s hs
    exact reachable_inv FlightInv ⟨by decide, by decide⟩ step_flightInv s hs

/-- Witness for C3 at a concrete input: two reads at times 200000 and
200001 on the state fetched at time 0 (stale, nothing in flight) issue
exactly one network call, and the initial state satisfies the in-flight
bound. -/
theorem single_flight_witness :
    netCalls [Event.getDocs false 200000, Event.getDocs false 200001] sPopulated = 1 ∧
    initState.pending.length ≤ 1 := by
  constructor
  · have h := single_flight.1 sPopulated 0 200000 [(false, 200001)]
      (by decide) (by decide) (by decide) (by decide)
    simpa using h
  · exact (single_flight.2 initState ⟨[], rfl⟩).1

/-- Loading-flag invariant: `isLoading` can be true only while a
foreground-initiated fetch is outstanding. -/
def LoadingInv (s : SysState) : Prop :=
  s.cache.isLoading = true → Initiator.fgGet ∈ s.pending

/-- Starting a fetch preserves the loading-flag invariant. -/
theorem fetchStart_loadingInv (who : Initiator) (s : SysState)
    (h : LoadingInv s) : LoadingInv (fetchStart who s).1 := by
  unfold fetchStart
  split
  · exact h
  · intro hl
    cases who with
    | fgGet => simp
    | bgGet =>
        simp only [Initiator.showLoading, if_neg Bool.false_ne_true] at hl
        exact List.mem_append_left _ (h hl)
    | refresh =>
        simp only [Initiator.showLoading, if_neg Bool.false_ne_true] at hl
        exact List.mem_append_left _ (h hl)

/-- Every step preserves the loading-flag invariant. -/
theorem step_loadingInv (e : Event) (s : SysState)
    (h : LoadingInv s) : LoadingInv (step e s).1 := by
  cases e with
  | getDocs f now =>
      simp only [step]
      split
      · exact fetchStart_loadingInv _ s h
      · split
        · exact fetchStart_loadingInv _ s h
        · exact h
  | refreshDocs => exact fetchStart_loadingInv _ s h
  | addDoc d => exact h
  | removeDoc i => exact h
  | invalidate => intro hl; exact absurd hl (by simp [step])
  | resolve resp now =>
      simp only [step]
      match hpend : s.pending with
      | [] => exact h
      | who :: rest => intro hl; exact absurd hl (by simp)
  | reject err =>
      simp only [step]
      match hpend : s.pending with
      | [] => exact h
      | who :: rest => intro hl; exact absurd hl (by simp)

/-- C6: in every reachable state, `isLoading = true` implies a
foreground-initiated fetch is in flight; and neither the fetch performed
by `refreshDocuments` nor the background fetch taken by the staleness
branch of `getDocuments` (non-empty cache, `forceRefresh = false`) ever
changes `isLoading`. -/
theorem isLoading_only_foreground :
    (∀ s : SysState, Reachable s →
       s.cache.isLoading = true → Initiator.fgGet ∈ s.pending) ∧
    (∀ s : SysState,
       (step .refreshDocs s).1.cache.isLoading = s.cache.isLoading) ∧
    (∀ (s : SysState) (now : Int), s.cache.documents ≠ [] →
       (step (.getDocs false now) s).1.cache.isLoading = s.cache.isLoading) := by
  refine ⟨?_, ?_, ?_⟩
  · intro s hs
    exact reachable_inv LoadingInv (by intro hl; exact absurd hl (by decide))
      step_loadingInv s hs
  · intro s
    exact fetchStart_isLoading_of_not_showLoading .refresh s rfl
  · intro s now hne
    have hlen : ¬ s.cache.documents.length = 0 := by
      simpa [List.length_eq_zero] using hne
    by_cases hstale : isCacheStale now s.cache = true
    · have h1 : step (.getDocs false now) s = fetchStart .bgGet s := by
        simp [step, hlen, hstale]
      rw [h1]
      exact fetchStart_isLoading_of_not_showLoading .bgGet s rfl
    · have h1 : step (.getDocs false now) s = (s, Obs.none) := by
        simp [step, hlen, hstale]
      rw [h1]

/-- Witness for C6 at concrete inputs: the reachable state after
`getDocuments(true)` from launch has `isLoading = true` and indeed a
foreground fetch in flight; and a fresh read on the populated state leaves
`isLoading` untouched. -/
theorem isLoading_only_foreground_witness :
    Initiator.fgGet ∈ (run [Event.getDocs true 0] initState).pending ∧
    (step (.getDocs false 5) sPopulated).1.cache.isLoading
      = sPopulated.cache.isLoading :=
  ⟨isLoading_only_foreground.1 (run [Event.getDocs true 0] initState)
      ⟨[Event.getDocs true 0], rfl⟩ (by decide),
   isLoading_only_foreground.2.2 sPopulated 5 (by decide)⟩

/-- C4: when no fetch is in flight, `getDocuments(true)` issues a
foreground fetch; if the Document Listing Service rejects with `err`, that
very error is raised to the caller, `documents` and `lastFetched` are
exactly what they were before the call, `isLoading` ends false, and the
guard is released. -/
theorem foreground_failure_propagates (s : SysState) (now : Int) (err : String)
    (hf : s.fetching = false) (hp : s.pending = []) :
    (step (.getDocs true now) s).2.networkCalled = true ∧
    (step (.reject err) (step (.getDocs true now) s).1).2.raised = some err ∧
    (step (.reject err) (step (.getDocs true now) s).1).1.cache.documents
      = s.cache.documents ∧
    (step (.reject err) (step (.getDocs true now) s).1).1.cache.lastFetched
      = s.cache.lastFetched ∧
    (step (.reject err) (step (.getDocs true now) s).1).1.cache.isLoading = false ∧
    (step (.reject err) (step (.getDocs true now) s).1).1.fetching = false := by
  have h1 : step (.getDocs true now) s =
      ({ cache := { s.cache with isLoading := true }
         fetching := true
         pending := [.fgGet] },
       { networkCalled := true, raised := Option.none }) := by
    simp [step, fetchStart, hf, hp, Initiator.showLoading]
  rw [h1]
  simp [step]

/-- Witness for C4 at a concrete input: a rejected forced refresh from the
populated state raises `"boom"` and leaves the cached list `[docA]` and
timestamp intact. -/
theorem foreground_failure_propagates_witness :
    (step (.getDocs true 5) sPopulated).2.networkCalled = true ∧
    (step (.reject "boom") (step (.getDocs true 5) sPopulated).1).2.raised
      = some "boom" ∧
    (step (.reject "boom") (step (.getDocs true 5) sPopulated).1).1.cache.documents
      = sPopulated.cache.documents ∧
    (step (.reject "boom") (step (.getDocs true 5) sPopulated).1).1.cache.lastFetched
      = sPopulated.cache.lastFetched ∧
    (step (.reject "boom") (step (.getDocs true 5) sPopulated).1).1.cache.isLoading
      = false ∧
    (step (.reject "boom") (step (.getDocs true 5) sPopulated).1).1.fetching
      = false :=
  foreground_failure_propagates sPopulated 5 "boom" (by decide) (by decide)

/-- C5 counterexample: a `refreshDocuments()` call made while another
fetch is already in flight performs no network call at all (the
single-flight guard skips it), refuting the claim that every invocation of
`refreshDocuments` performs a fetch. -/
theorem refresh_skip_counterexample :
    (let s1 := (step Event.refreshDocs initState).1
     s1.fetching = true ∧
     (step Event.refreshDocs s1).2.networkCalled = false ∧
     (step Event.refreshDocs s1).1 = s1) := by decide

/-- C5 (amended): when no fetch is in flight, `refreshDocuments()`
performs a fetch without ever setting `isLoading` (it is untouched at the
start and false at the end), and a rejection of that fetch raises the
error to `refreshDocuments`' caller; when another fetch is already in
flight, `refreshDocuments` is a silent no-op issuing no network call and
raising nothing. -/
theorem refreshDocuments_behavior (s : SysState) (err : String) :
    (s.fetching = false → s.pending = [] →
       (step .refreshDocs s).2.networkCalled = true ∧
       (step .refreshDocs s).1.cache.isLoading = s.cache.isLoading ∧
       (step (.reject err) (step .refreshDocs s).1).2.raised = some err ∧
       (step (.reject err) (step .refreshDocs s).1).1.cache.isLoading = false) ∧
    (s.fetching = true → step .refreshDocs s = (s, Obs.none)) := by
  constructor
  · intro hf hp
    have h1 : step .refreshDocs s =
        ({ cache := s.cache, fetching := true, pending := [.refresh] },
         { networkCalled := true, raised := Option.none }) := by
      simp [step, fetchStart, hf, hp, Initiator.showLoading]
    rw [h1]
    simp [step]
  · intro hf
    simp [step, fetchStart, hf]

/-- Witness for C5 (amended) at a concrete input: from launch,
`refreshDocuments()` issues a network call, leaves `isLoading` false, and
its rejection raises `"boom"`. -/
theorem refreshDocuments_behavior_witness :
    (step .refreshDocs initState).2.networkCalled = true ∧
    (step .refreshDocs initState).1.cache.isLoading
      = initState.cache.isLoading ∧
    (step (.reject "boom") (step .refreshDocs initState).1).2.raised
      = some "boom" ∧
    (step (.reject "boom") (step .refreshDocs initState).1).1.cache.isLoading
      = false :=
  (refreshDocuments_behavior initState "boom").1 (by decide) (by decide)

/-- C9: with no fetch in flight, `invalidateCache()` followed by
`addDocument(d)` reaches a state with `documents = [d]` and
`lastFetched = null`; a subsequent `getDocuments(false)` then takes the
staleness branch: it issues a background fetch (initiator `bgGet`, whose
promise is not awaited and whose rejection is swallowed) and `isLoading`
stays false — not the foreground fetch an empty never-fetched cache would
receive. -/
theorem invalidate_add_background (s : SysState) (d : Document) (now : Int)
    (hf : s.fetching = false) :
    ((step (.addDoc d) (step .invalidate s).1).1.cache.documents = [d]) ∧
    ((step (.addDoc d) (step .invalidate s).1).1.cache.lastFetched = none) ∧
    ((step (.addDoc d) (step .invalidate s).1).1.cache.isLoading = false) ∧
    ((step (.getDocs false now) (step (.addDoc d) (step .invalidate s).1).1).2.networkCalled
       = true) ∧
    ((step (.getDocs false now) (step (.addDoc d) (step .invalidate s).1).1).1.cache.isLoading
       = false) ∧
    ((step (.getDocs false now) (step (.addDoc d) (step .invalidate s).1).1).1.pending
       = s.pending ++ [Initiator.bgGet]) := by
  have h2 : (step (.addDoc d) (step .invalidate s).1).1 =
      { cache := { documents := [d], lastFetched := none, isLoading := false }
        fetching := s.fetching
        pending := s.pending } := by
    simp [step]
  rw [h2]
  simp [step, fetchStart, isCacheStale, hf, Initiator.showLoading]

/-- Witness for C9 at a concrete input: invalidate, add `docA`, then read
at time 999999 — a background fetch is issued with `isLoading` still
false. -/
theorem invalidate_add_background_witness :
    ((step (.addDoc docA) (step .invalidate initState).1).1.cache.documents = [docA]) ∧
    ((step (.getDocs false 999999)
        (step (.addDoc docA) (step .invalidate initState).1).1).2.networkCalled = true) ∧
    ((step (.getDocs false 999999)
        (step (.addDoc docA) (step .invalidate initState).1).1).1.cache.isLoading = false) :=
  ⟨(invalidate_add_background initState docA 999999 (by decide)).1,
   (invalidate_add_background initState docA 999999 (by decide)).2.2.2.1,
   (invalidate_add_background initState docA 999999 (by decide)).2.2.2.2.1⟩
